import Mathlib

/-!
Verification of the quota-gate / fallback-response logic of the SmartHire
resume-analysis app (`app.py`).

Shallow embedding conventions:
* `datetime.now()` timestamps are modelled as `Nat` seconds; the 60-minute
  window of `timedelta(minutes=60)` is the constant 3600 seconds, and the
  strict comparison `current_time - last_reset_time > timedelta(minutes=60)`
  becomes `now - last_reset_time > 3600` (truncated `Nat` subtraction; wall
  time is monotone, so `now ≥ last_reset_time` in every reachable state).
* Streamlit session state (`api_call_count`, `last_reset_time`,
  `quota_limit`) and the process-wide global `API_CALLS` are gathered into
  one explicit record `AppState` that every operation threads.
* The external Gemini API is an oracle: each potential invocation either
  returns text (`ApiResult.ok`) or raises an exception carrying a message
  (`ApiResult.exn`).  A Python exception propagating out of a function is
  `Except.error`; `time.sleep` has no state effect and is dropped.
* Python `str` is modelled by `String` (and by `List Char` where index
  arithmetic is needed for the regex model).
-/

/-- Session state plus the process-wide counter `API_CALLS` of `app.py`. -/
structure AppState where
  api_call_count : Nat
  last_reset_time : Nat
  quota_limit : Nat
  api_calls_global : Nat
deriving Repr, DecidableEq

/-- `check_and_reset_quota` (app.py lines 45–52): reset the counter when more
than 60 minutes have elapsed and return `True`; otherwise leave the state
alone and return `api_call_count < quota_limit`. -/
def check_and_reset_quota (now : Nat) (s : AppState) : Bool × AppState :=
  if now - s.last_reset_time > 3600 then
    (true, { s with api_call_count := 0, last_reset_time := now })
  else
    (decide (s.api_call_count < s.quota_limit), s)

/-- Outcome of one attempted call to `model.generate_content`: a normal
response text, or a raised exception with message `str(e)`. -/
inductive ApiResult where
  | ok (text : String)
  | exn (msg : String)
deriving Repr, DecidableEq

/-- `startsWithChars p s` holds when `p` occurs at the front of `s`. -/
def startsWithChars : List Char → List Char → Bool
  | [], _ => true
  | _ :: _, [] => false
  | p :: ps, c :: cs => p = c && startsWithChars ps cs

/-- Substring test used to model Python's `"quota" in text`. -/
def containsChars (p : List Char) : List Char → Bool
  | [] => startsWithChars p []
  | c :: cs => startsWithChars p (c :: cs) || containsChars p cs

/-- `"quota" in text.lower()` (app.py lines 83 and 370). -/
def containsQuota (t : String) : Bool :=
  containsChars ['q', 'u', 'o', 't', 'a'] (t.toList.map Char.toLower)

/-- Message returned when the gate denies the call (app.py line 65);
`remaining` is the computed minutes-left figure. -/
def quota_limit_msg (remaining : Nat) : String :=
  "⚠️ API quota limit reached. Please try again in approximately "
    ++ Nat.repr remaining ++ " minutes."

/-- Message returned once the process-wide counter passes 45 (app.py line 80). -/
def daily_limit_msg : String :=
  "⚠️ Daily limit reached. Service resumes in 24 hours."

/-- Message returned when an exception text mentions quota (app.py line 85). -/
def capacity_msg : String :=
  "⚠️ Our AI systems are currently at capacity. Please try again in 30 minutes."

/-- Result of one execution of the body of `get_gemini_response`:
the returned string, the state after the call, and how many invocations of
the external model API were performed (0 or 1). -/
structure GeminiOut where
  text : String
  state : AppState
  apiCallsMade : Nat
deriving Repr, DecidableEq

/-- Body of `get_gemini_response` (app.py lines 56–86), without the tenacity
decorator.  `time.sleep(1.2)` has no state effect.  The `remaining_time`
arithmetic mirrors `60 - ((now - last).seconds // 60)`: `timedelta.seconds`
is the total seconds modulo 86400.  Every Python exception from the API call
is caught inside the body, so the body always returns normally. -/
def gemini_body (now : Nat) (s : AppState) (api : ApiResult) : GeminiOut :=
  let g := check_and_reset_quota now s
  if g.1 = false then
    { text := quota_limit_msg (60 - ((now - g.2.last_reset_time) % 86400) / 60),
      state := g.2, apiCallsMade := 0 }
  else
    match api with
    | ApiResult.ok t =>
      let s1 := { g.2 with
        api_call_count := g.2.api_call_count + 1,
        api_calls_global := g.2.api_calls_global + 1 }
      if s1.api_calls_global > 45 then
        { text := daily_limit_msg, state := s1, apiCallsMade := 1 }
      else
        { text := t, state := s1, apiCallsMade := 1 }
    | ApiResult.exn m =>
      if containsQuota m then
        { text := capacity_msg,
          state := { g.2 with api_call_count := g.2.quota_limit },
          apiCallsMade := 1 }
      else
        { text := "❌ Error: " ++ m, state := g.2, apiCallsMade := 1 }

/-- Semantics of the tenacity decorator
`@retry(stop=stop_after_attempt(3), wait=wait_exponential(...))`: run the
body; a normal return ends the loop, a raised exception is retried until
the attempt budget is spent, after which it propagates.  Returns the final
outcome together with the number of attempts made; `k` numbers the attempts
so each one can consult its own oracle entry. -/
def tenacityRun {A : Type} (body : Nat → Except String A) :
    Nat → Nat → Except String A × Nat
  | 0, k => (body k, 1)
  | fuel + 1, k =>
    match body k with
    | Except.ok a => (Except.ok a, 1)
    | Except.error e =>
      if fuel = 0 then (Except.error e, 1)
      else
        let r := tenacityRun body fuel (k + 1)
        (r.1, r.2 + 1)

/-- The decorated `get_gemini_response`: tenacity around `gemini_body` with a
3-attempt budget.  The body catches every exception itself and returns a
string, so it never raises (`Except.ok` by construction, mirroring the
`try/except` that spans the whole API interaction). -/
def get_gemini_response (now : Nat) (s : AppState) (apis : Nat → ApiResult) :
    Except String GeminiOut × Nat :=
  tenacityRun (fun k => Except.ok (gemini_body now s (apis k))) 3 0

/-- The decorated call always returns the body's first-attempt result after
exactly one attempt, because the body never raises. -/
theorem get_gemini_response_eq (now : Nat) (s : AppState) (apis : Nat → ApiResult) :
    get_gemini_response now s apis = (Except.ok (gemini_body now s (apis 0)), 1) := rfl

/-- C1: `check_and_reset_quota` resets `api_call_count` to 0 and
`last_reset_time` to the current time exactly when more than 60 minutes have
elapsed (and changes nothing otherwise), and it returns `true` iff the
(post-update) `api_call_count` is below `quota_limit`. -/
theorem check_and_reset_quota_C1 (now : Nat) (s : AppState)
    (hpos : 0 < s.quota_limit) :
    (now - s.last_reset_time > 3600 →
      (check_and_reset_quota now s).2.api_call_count = 0 ∧
      (check_and_reset_quota now s).2.last_reset_time = now) ∧
    (now - s.last_reset_time ≤ 3600 →
      (check_and_reset_quota now s).2 = s) ∧
    ((check_and_reset_quota now s).1 = true ↔
      (check_and_reset_quota now s).2.api_call_count <
        (check_and_reset_quota now s).2.quota_limit) := by
  unfold check_and_reset_quota
  by_cases h : now - s.last_reset_time > 3600
  · simp [h]
    omega
  · simp [h]

/-- C1 witness, the claim's own scenario: elapsed = 61 minutes (3660 s),
`api_call_count = 60`, `quota_limit = 60`: the gate resets the counter to 0,
sets the window start to now, and returns `true`. -/
theorem check_and_reset_quota_C1_witness :
    0 < (AppState.mk 60 0 60 0).quota_limit ∧
    ((3660 - (AppState.mk 60 0 60 0).last_reset_time > 3600 →
      (check_and_reset_quota 3660 (AppState.mk 60 0 60 0)).2.api_call_count = 0 ∧
      (check_and_reset_quota 3660 (AppState.mk 60 0 60 0)).2.last_reset_time = 3660) ∧
    (3660 - (AppState.mk 60 0 60 0).last_reset_time ≤ 3600 →
      (check_and_reset_quota 3660 (AppState.mk 60 0 60 0)).2 = AppState.mk 60 0 60 0) ∧
    ((check_and_reset_quota 3660 (AppState.mk 60 0 60 0)).1 = true ↔
      (check_and_reset_quota 3660 (AppState.mk 60 0 60 0)).2.api_call_count <
        (check_and_reset_quota 3660 (AppState.mk 60 0 60 0)).2.quota_limit)) ∧
    check_and_reset_quota 3660 (AppState.mk 60 0 60 0) =
      (true, AppState.mk 0 3660 60 0) :=
  ⟨by decide, check_and_reset_quota_C1 3660 (AppState.mk 60 0 60 0) (by decide),
   by decide⟩

/-- C10: when at most 60 minutes have elapsed, `check_and_reset_quota`
performs no state mutation at all — it returns the comparison result and the
state exactly as given; the only mutation it ever performs is the reset in
the over-60-minutes branch. -/
theorem check_and_reset_quota_C10 (now : Nat) (s : AppState)
    (h : now - s.last_reset_time ≤ 3600) :
    check_and_reset_quota now s = (decide (s.api_call_count < s.quota_limit), s) := by
  unfold check_and_reset_quota
  simp [Nat.not_lt.mpr h]

/-- C10 witness: 30 minutes elapsed, counter 7 of 60 — the gate returns
`true` and leaves the state untouched. -/
theorem check_and_reset_quota_C10_witness :
    1800 - (AppState.mk 7 0 60 3).last_reset_time ≤ 3600 ∧
    check_and_reset_quota 1800 (AppState.mk 7 0 60 3) =
      (decide ((AppState.mk 7 0 60 3).api_call_count <
        (AppState.mk 7 0 60 3).quota_limit), AppState.mk 7 0 60 3) :=
  ⟨by decide, check_and_reset_quota_C10 1800 (AppState.mk 7 0 60 3) (by decide)⟩

/-- One window-state operation of the app: a bare gate check, a full
`get_gemini_response` invocation (which increments the counter only after a
successful response, and latches it on a quota-flavoured exception), or the
sidebar `number_input` writing `quota_limit` (the widget clamps its value to
[10, 200], app.py line 411). -/
inductive QOp where
  | gate (now : Nat)
  | call (now : Nat) (api : ApiResult)
  | setLimit (n : Nat)
deriving Repr, DecidableEq

/-- State effect of one operation. -/
def applyOp (s : AppState) : QOp → AppState
  | QOp.gate now => (check_and_reset_quota now s).2
  | QOp.call now api => (gemini_body now s api).state
  | QOp.setLimit n => { s with quota_limit := min 200 (max 10 n) }

/-- Run a sequence of operations from left to right. -/
def runOps (s : AppState) : List QOp → AppState
  | [] => s
  | op :: ops => runOps (applyOp s op) ops

/-- Recogniser for the sidebar limit-adjustment operation. -/
def QOp.isSetLimit : QOp → Bool
  | QOp.setLimit _ => true
  | _ => false

/-- Gate checks and full calls preserve `api_call_count ≤ quota_limit` (and
leave `quota_limit` positive and unchanged or positive). -/
theorem applyOp_preserves_inv (s : AppState) (op : QOp)
    (hop : op.isSetLimit = false)
    (hle : s.api_call_count ≤ s.quota_limit) (hpos : 0 < s.quota_limit) :
    (applyOp s op).api_call_count ≤ (applyOp s op).quota_limit ∧
      0 < (applyOp s op).quota_limit := by
  cases op with
  | gate now =>
    simp only [applyOp, check_and_reset_quota]
    by_cases h : now - s.last_reset_time > 3600 <;> simp [h] <;> omega
  | call now api =>
    simp only [applyOp, gemini_body, check_and_reset_quota]
    by_cases h : now - s.last_reset_time > 3600
    · cases api with
      | ok t =>
        simp [h]
        split <;> simp <;> omega
      | exn m =>
        by_cases hq : containsQuota m <;> simp [h, hq] <;> omega
    · by_cases hallow : s.api_call_count < s.quota_limit
      · cases api with
        | ok t =>
          simp [h, hallow]
          split <;> simp <;> omega
        | exn m =>
          by_cases hq : containsQuota m <;> simp [h, hallow, hq] <;> omega
      · simp [h, hallow]; omega
  | setLimit n => simp [QOp.isSetLimit] at hop

/-- C2 counterexample: the claim as stated includes the user's limit
adjustment among the in-window operations, and that breaks the invariant.
From the initial state (count 0, limit 60), a quota-flavoured exception
latches the counter to 60, and the user then lowers the limit to 10 (a value
the sidebar widget accepts): afterwards `api_call_count = 60 > 10 =
quota_limit`. -/
theorem runOps_C2_counterexample :
    ¬ ((runOps (AppState.mk 0 0 60 0)
        [QOp.call 0 (ApiResult.exn "Quota exceeded"), QOp.setLimit 10]).api_call_count ≤
       (runOps (AppState.mk 0 0 60 0)
        [QOp.call 0 (ApiResult.exn "Quota exceeded"), QOp.setLimit 10]).quota_limit) := by
  decide

/-- C2 (amended): for every sequence of gate checks and full calls within a
window — increments happening only after the gate returned true and a model
response was obtained, quota errors latching the counter to the limit —
starting from a state satisfying `api_call_count ≤ quota_limit` and
`0 < quota_limit`, the invariant `api_call_count ≤ quota_limit` is
preserved.  The user's limit adjustment is excluded: lowering the limit
below the current counter violates the invariant (see the counterexample). -/
theorem runOps_C2_invariant (ops : List QOp) (s : AppState)
    (hops : ops.all (fun op => !op.isSetLimit) = true)
    (hle : s.api_call_count ≤ s.quota_limit) (hpos : 0 < s.quota_limit) :
    (runOps s ops).api_call_count ≤ (runOps s ops).quota_limit := by
  induction ops generalizing s with
  | nil => exact hle
  | cons op ops ih =>
    simp only [List.all_cons, Bool.and_eq_true, Bool.not_eq_true'] at hops
    have h := applyOp_preserves_inv s op hops.1 hle hpos
    have hops2 : ops.all (fun op => !op.isSetLimit) = true := by
      simpa using hops.2
    exact ih (applyOp s op) hops2 h.1 h.2

/-- C2 witness: a successful call followed by a gate check from the fresh
state keeps the counter below the limit. -/
theorem runOps_C2_invariant_witness :
    ([QOp.call 0 (ApiResult.ok "hi"), QOp.gate 10].all
      (fun op => !op.isSetLimit) = true) ∧
    (AppState.mk 0 0 60 0).api_call_count ≤ (AppState.mk 0 0 60 0).quota_limit ∧
    0 < (AppState.mk 0 0 60 0).quota_limit ∧
    (runOps (AppState.mk 0 0 60 0)
      [QOp.call 0 (ApiResult.ok "hi"), QOp.gate 10]).api_call_count ≤
    (runOps (AppState.mk 0 0 60 0)
      [QOp.call 0 (ApiResult.ok "hi"), QOp.gate 10]).quota_limit :=
  ⟨by decide, by decide, by decide,
   runOps_C2_invariant [QOp.call 0 (ApiResult.ok "hi"), QOp.gate 10]
     (AppState.mk 0 0 60 0) (by decide) (by decide) (by decide)⟩

/-- C3: when a model-call exception whose text contains "quota"
(case-insensitively) is raised past an open gate, the body sets
`api_call_count` to `quota_limit`; thereafter, at every instant still inside
the window (elapsed ≤ 3600 s), the gate returns `false` without touching the
state, and a further `get_gemini_response` at such an instant makes zero
API calls and returns the quota-limit message. -/
theorem gemini_quota_latch_C3 (t0 : Nat) (s : AppState) (m : String)
    (hopen : (check_and_reset_quota t0 s).1 = true)
    (hq : containsQuota m = true) :
    ((gemini_body t0 s (ApiResult.exn m)).state.api_call_count =
      (gemini_body t0 s (ApiResult.exn m)).state.quota_limit) ∧
    (∀ now, now - (gemini_body t0 s (ApiResult.exn m)).state.last_reset_time ≤ 3600 →
      check_and_reset_quota now (gemini_body t0 s (ApiResult.exn m)).state =
        (false, (gemini_body t0 s (ApiResult.exn m)).state) ∧
      ∀ api, (gemini_body t0 s (ApiResult.exn m)).state = (gemini_body now
          (gemini_body t0 s (ApiResult.exn m)).state api).state ∧
        (gemini_body now (gemini_body t0 s (ApiResult.exn m)).state api).apiCallsMade = 0 ∧
        (gemini_body now (gemini_body t0 s (ApiResult.exn m)).state api).text =
          quota_limit_msg (60 - ((now -
            (gemini_body t0 s (ApiResult.exn m)).state.last_reset_time) % 86400) / 60)) := by
  have hbody : gemini_body t0 s (ApiResult.exn m) =
      { text := capacity_msg,
        state := { (check_and_reset_quota t0 s).2 with
          api_call_count := (check_and_reset_quota t0 s).2.quota_limit },
        apiCallsMade := 1 } := by
    simp [gemini_body, hopen, hq]
  rw [hbody]
  refine ⟨rfl, ?_⟩
  intro now hin
  have hgate : check_and_reset_quota now
      { (check_and_reset_quota t0 s).2 with
        api_call_count := (check_and_reset_quota t0 s).2.quota_limit } =
      (false, { (check_and_reset_quota t0 s).2 with
        api_call_count := (check_and_reset_quota t0 s).2.quota_limit }) := by
    simp only [check_and_reset_quota] at hin ⊢
    simp [Nat.not_lt.mpr hin]
  refine ⟨hgate, ?_⟩
  intro api
  simp [gemini_body, hgate]

/-- C3 witness: exception text "Resource quota exceeded" at an open gate
(count 5 of 60, window fresh) latches the counter; 10 minutes later the gate
is closed, no API call is made, and the quota message comes back. -/
theorem gemini_quota_latch_C3_witness :
    (check_and_reset_quota 0 (AppState.mk 5 0 60 2)).1 = true ∧
    containsQuota "Resource quota exceeded" = true ∧
    ((gemini_body 0 (AppState.mk 5 0 60 2)
        (ApiResult.exn "Resource quota exceeded")).state.api_call_count =
      (gemini_body 0 (AppState.mk 5 0 60 2)
        (ApiResult.exn "Resource quota exceeded")).state.quota_limit) ∧
    (check_and_reset_quota 600 (gemini_body 0 (AppState.mk 5 0 60 2)
        (ApiResult.exn "Resource quota exceeded")).state).1 = false ∧
    (gemini_body 600 (gemini_body 0 (AppState.mk 5 0 60 2)
        (ApiResult.exn "Resource quota exceeded")).state
        (ApiResult.ok "more")).apiCallsMade = 0 := by
  have h := gemini_quota_latch_C3 0 (AppState.mk 5 0 60 2)
    "Resource quota exceeded" (by decide) (by decide)
  have h600 := h.2 600 (by decide)
  exact ⟨by decide, by decide, h.1,
    by rw [h600.1], (h600.2 (ApiResult.ok "more")).2.1⟩

/-- C4 (code-bug evaluation): with an oracle that raises a transient
non-quota failure on every attempt, the decorated `get_gemini_response`
makes exactly ONE attempt — not three — and returns normally with the
prefixed error string; the tenacity decorator never retries because the
body's blanket `except` converts the exception to a return value before the
decorator can see it.  No exception propagates (the outcome is `Except.ok`),
and no backoff sleep ever happens. -/
theorem gemini_single_attempt_C4 :
    get_gemini_response 0 (AppState.mk 0 0 60 0)
      (fun _ => ApiResult.exn "503 Service Unavailable") =
    (Except.ok (GeminiOut.mk "❌ Error: 503 Service Unavailable"
      (AppState.mk 0 0 60 0) 1), 1) := by
  rfl

/-- C5 counterexample: with the process-wide counter at 46 (> 45), a
successful invocation still performs one external API call (the threshold
is only consulted after the call and the increments), then discards the
response and returns the daily-limit message — refuting "without making a
call to the external model API". -/
theorem gemini_daily_limit_C5_counterexample :
    (gemini_body 0 (AppState.mk 0 0 60 46) (ApiResult.ok "model says hi")).text =
      daily_limit_msg ∧
    ¬ ((gemini_body 0 (AppState.mk 0 0 60 46)
        (ApiResult.ok "model says hi")).apiCallsMade = 0) := by
  decide

/-- C5 (amended): when the gate permits the call and the model call
succeeds, and the process-wide counter after its increment exceeds 45,
`get_gemini_response` discards the model's text and returns the synthesized
daily-limit message — but the external API call has already been made
(exactly one) and both counters incremented. -/
theorem gemini_daily_limit_C5_amended (now : Nat) (s : AppState) (t : String)
    (hopen : (check_and_reset_quota now s).1 = true)
    (hover : s.api_calls_global + 1 > 45) :
    (gemini_body now s (ApiResult.ok t)).text = daily_limit_msg ∧
    (gemini_body now s (ApiResult.ok t)).apiCallsMade = 1 ∧
    (gemini_body now s (ApiResult.ok t)).state.api_calls_global =
      s.api_calls_global + 1 ∧
    (gemini_body now s (ApiResult.ok t)).state.api_call_count =
      (check_and_reset_quota now s).2.api_call_count + 1 := by
  have hglob : (check_and_reset_quota now s).2.api_calls_global =
      s.api_calls_global := by
    unfold check_and_reset_quota
    by_cases h : now - s.last_reset_time > 3600 <;> simp [h]
  simp only [gemini_body, hopen]
  simp [hglob, Nat.lt_of_lt_of_le hover (Nat.le_refl _), hover]

/-- C5 witness: counter at 46, fresh window, successful response — the
daily-limit message is returned, one call made, counters 1 and 47. -/
theorem gemini_daily_limit_C5_amended_witness :
    (check_and_reset_quota 0 (AppState.mk 0 0 60 46)).1 = true ∧
    (AppState.mk 0 0 60 46).api_calls_global + 1 > 45 ∧
    (gemini_body 0 (AppState.mk 0 0 60 46) (ApiResult.ok "text")).text =
      daily_limit_msg ∧
    (gemini_body 0 (AppState.mk 0 0 60 46) (ApiResult.ok "text")).apiCallsMade = 1 :=
  ⟨by decide, by decide,
   (gemini_daily_limit_C5_amended 0 (AppState.mk 0 0 60 46) "text"
     (by decide) (by decide)).1,
   (gemini_daily_limit_C5_amended 0 (AppState.mk 0 0 60 46) "text"
     (by decide) (by decide)).2.1⟩

/-- The fixed 5-entry skill-gap JSON array returned when quota is denied
(app.py lines 344–350 and 371–377; the two occurrences are identical).
Braces are written with the escapes `\x7b` / `\x7d`. -/
def fallbackSkillGaps : String :=
  "[\n            \x7b\"skill\": \"Data Analysis\", \"importance\": 8, \"difficulty\": 6\x7d,\n            \x7b\"skill\": \"Project Management\", \"importance\": 7, \"difficulty\": 5\x7d,\n            \x7b\"skill\": \"Cloud Computing\", \"importance\": 9, \"difficulty\": 7\x7d,\n            \x7b\"skill\": \"UI/UX Design\", \"importance\": 6, \"difficulty\": 4\x7d,\n            \x7b\"skill\": \"DevOps\", \"importance\": 8, \"difficulty\": 8\x7d\n        ]"

/-- The fixed 3-milestone learning-path JSON array returned when quota is
denied (app.py lines 350–354 and 377–381). -/
def fallbackLearningPath : String :=
  "[\n            \x7b\"milestone\": \"Data Analysis Fundamentals\", \"skills_addressed\": [\"Data Analysis\"], \"resources\": [\"Coursera Data Analysis Course\", \"Practice with Kaggle Datasets\"], \"duration_weeks\": 3, \"outcome\": \"Basic proficiency in data analysis\"\x7d,\n            \x7b\"milestone\": \"Project Management Certification\", \"skills_addressed\": [\"Project Management\"], \"resources\": [\"PMI Certification\", \"Agile Methodology Course\"], \"duration_weeks\": 4, \"outcome\": \"Project management certification\"\x7d,\n            \x7b\"milestone\": \"Cloud Computing Basics\", \"skills_addressed\": [\"Cloud Computing\", \"DevOps\"], \"resources\": [\"AWS Training\", \"Azure Learning Path\"], \"duration_weeks\": 5, \"outcome\": \"Cloud computing fundamentals\"\x7d\n        ]"

/-- `generate_skill_gap_learning_path` (app.py lines 341–390): if the gate
denies, return the fixed fallback pair without calling the model; otherwise
call `get_gemini_response` for the skill gaps (each decorated call makes one
attempt, see `get_gemini_response_eq`, so it is the body at oracle entry 0);
if that result's text mentions "quota" return the fallback pair; otherwise
make the second call for the learning path.  The result carries the pair of
strings, the final state, and the number of external API invocations.
Prompt text, temperature and token limits do not affect the gating logic and
are not modelled. -/
def generate_skill_gap_learning_path (now : Nat) (s : AppState)
    (apis : Nat → ApiResult) : (String × String) × AppState × Nat :=
  let g := check_and_reset_quota now s
  if g.1 = false then
    ((fallbackSkillGaps, fallbackLearningPath), g.2, 0)
  else
    let r1 := gemini_body now g.2 (apis 0)
    if containsQuota r1.text then
      ((fallbackSkillGaps, fallbackLearningPath), r1.state, r1.apiCallsMade)
    else
      let r2 := gemini_body now r1.state (apis 1)
      ((r1.text, r2.text), r2.state, r1.apiCallsMade + r2.apiCallsMade)

/-- C8: with `api_call_count = quota_limit = 60` and no reset due (elapsed at
most 60 minutes), the gate denies and the skill-gap action returns the fixed
5-entry skill-gap array and the fixed 3-milestone learning-path array
verbatim, with the state untouched and zero calls to the external model;
the two payloads indeed contain exactly 5 and 3 JSON objects (counting
opening braces). -/
theorem generate_skill_gap_C8 (now : Nat) (s : AppState) (apis : Nat → ApiResult)
    (hcount : s.api_call_count = 60) (hlimit : s.quota_limit = 60)
    (hin : now - s.last_reset_time ≤ 3600) :
    generate_skill_gap_learning_path now s apis =
      ((fallbackSkillGaps, fallbackLearningPath), s, 0) ∧
    (fallbackSkillGaps.toList.filter (fun c => c = Char.ofNat 123)).length = 5 ∧
    (fallbackLearningPath.toList.filter (fun c => c = Char.ofNat 123)).length = 3 := by
  have hgate : check_and_reset_quota now s = (false, s) := by
    unfold check_and_reset_quota
    simp [Nat.not_lt.mpr hin, hcount, hlimit]
  refine ⟨?_, by decide, by decide⟩
  unfold generate_skill_gap_learning_path
  simp [hgate]

/-- C8 witness: the claim's scenario with a concrete state (count 60 of 60,
30 minutes into the window) and an oracle that would answer normally. -/
theorem generate_skill_gap_C8_witness :
    (AppState.mk 60 0 60 0).api_call_count = 60 ∧
    (AppState.mk 60 0 60 0).quota_limit = 60 ∧
    1800 - (AppState.mk 60 0 60 0).last_reset_time ≤ 3600 ∧
    generate_skill_gap_learning_path 1800 (AppState.mk 60 0 60 0)
      (fun _ => ApiResult.ok "model text") =
      ((fallbackSkillGaps, fallbackLearningPath), AppState.mk 60 0 60 0, 0) :=
  ⟨by decide, by decide, by decide,
   (generate_skill_gap_C8 1800 (AppState.mk 60 0 60 0)
     (fun _ => ApiResult.ok "model text") (by decide) (by decide) (by decide)).1⟩

/-- The three canned resume-improvement tips (app.py lines 93–97). -/
def advice_resume_improvement : List String :=
  ["Highlight quantifiable achievements in your experience section.",
   "Add a skills matrix matching the job requirements.",
   "Include industry-specific keywords from the job description."]

/-- The three canned job-search tips (app.py lines 98–102). -/
def advice_job_search : List String :=
  ["Optimize your LinkedIn headline with key skills.",
   "Network with industry professionals on LinkedIn Groups.",
   "Tailor your resume for each application."]

/-- `advice_map.get(question_type, ["Keep improving your skills!"])`. -/
def advice_map (question_type : String) : List String :=
  if question_type = "resume_improvement" then advice_resume_improvement
  else if question_type = "job_search" then advice_job_search
  else ["Keep improving your skills!"]

/-- `random.choice(l)`: the randomness is an explicit input `r`, reduced to
an index into the list. -/
def randomChoice (l : List String) (r : Nat) : String :=
  l.getD (r % l.length) ""

/-- `get_career_advice` (app.py lines 89–104): decorated with
`@lru_cache(maxsize=50)`, so per argument pair the random choice is made
once and the cached value is returned afterwards.  `cache` is the cache
entry for this argument pair, `r` is the random draw used if the cache is
cold.  The `skills` argument is unused, as in the source. -/
def get_career_advice (question_type : String) (skills : String)
    (cache : Option String) (r : Nat) : String × Option String :=
  match cache with
  | some v => (v, some v)
  | none =>
    (randomChoice (advice_map question_type) r,
     some (randomChoice (advice_map question_type) r))

/-- The canned multi-section analysis summary (app.py lines 545–557). -/
def analysis_fallback_msg : String :=
  "## Resume Analysis Summary\n\n**Strengths:**\n- Strong technical skills section\n- Clear work experience chronology \n- Education credentials well presented\n\n**Areas for Improvement:**\n- Add more quantifiable achievements\n- Enhance professional summary\n- Consider adding relevant certifications\n\nYour resume shows good potential but could benefit from more specific metrics and achievements to stand out to employers."

/-- The quota-denied fallback dispatch of the main block (app.py lines
539–557): keyed on `current_action`; `"match"` and the full-analysis default
return fixed literals, `"enhance"` goes through `get_career_advice`.  The
uploaded resume is threaded as an opaque parameter `resume` to make its
(non-)influence explicit: the source never consults it here. -/
def fallback_response {R : Type} (action : String) (resume : R)
    (cache : Option String) (r : Nat) : String × Option String :=
  if action = "match" then ("Match Score: 72%", cache)
  else if action = "enhance" then get_career_advice "resume_improvement" "" cache r
  else (analysis_fallback_msg, cache)

/-- C9 counterexample: the enhance fallback is not independent of
randomness.  In the quota-denied state with a cold cache, random draw 0 and
random draw 1 produce different payloads, so the Fallback Responder is not
deterministic in the action type alone. -/
theorem fallback_C9_counterexample :
    ¬ ((fallback_response "enhance" (0 : Nat) none 0).1 =
       (fallback_response "enhance" (0 : Nat) none 1).1) := by
  decide

/-- C9 (amended): the match and full-analysis fallbacks are fixed literals —
independent of the resume, the cache and the randomness; the enhance
fallback is drawn from the fixed 3-item tip list by the first random draw
and cached, so a second quota-denied run (any resume, any fresh randomness)
returns the identical cached payload — but that common payload is selected
by the initial random draw, not by the action type alone. -/
theorem fallback_C9_amended :
    (∀ (R1 R2 : Type) (res1 : R1) (res2 : R2) (c : Option String) (r1 r2 : Nat),
      (fallback_response "match" res1 c r1).1 = "Match Score: 72%" ∧
      (fallback_response "analysis" res1 c r1).1 = analysis_fallback_msg ∧
      (fallback_response "match" res1 c r1).1 = (fallback_response "match" res2 c r2).1 ∧
      (fallback_response "analysis" res1 c r1).1 =
        (fallback_response "analysis" res2 c r2).1) ∧
    (∀ (R1 R2 : Type) (res1 : R1) (res2 : R2) (r0 r1 : Nat),
      (fallback_response "enhance" res2
          (fallback_response "enhance" res1 none r0).2 r1).1 =
        (fallback_response "enhance" res1 none r0).1 ∧
      (fallback_response "enhance" res1 none r0).1 =
        advice_resume_improvement.getD (r0 % 3) "") := by
  constructor
  · intro R1 R2 res1 res2 c r1 r2
    exact ⟨rfl, rfl, rfl, rfl⟩
  · intro R1 R2 res1 res2 r0 r1
    constructor
    · rfl
    · simp [fallback_response, get_career_advice, randomChoice, advice_map,
        advice_resume_improvement]

/-- Decimal value of a digit string, as Python's `int` computes it on the
concatenated digits. -/
def digitsToNat (l : List Char) : Nat :=
  l.foldl (fun acc c => 10 * acc + (c.toNat - 48)) 0

/-- Match-score extraction (app.py lines 572–573):
`int(''.join(filter(str.isdigit, response)) or 50)` followed by
`max(0, min(100, score))`.  An empty digit string makes the `or` produce the
literal 50. -/
def extract_match_score (response : String) : Nat :=
  let digits := response.toList.filter Char.isDigit
  let score := if digits.isEmpty then 50 else digitsToNat digits
  max 0 (min 100 score)

/-- Applying the extraction to the decimal rendering of any already-extracted
score gives the score back (there are only 101 possible scores). -/
theorem extract_match_score_repr : ∀ n : Nat, n < 101 →
    extract_match_score (Nat.repr n) = n := by
  decide

/-- C6: match-score extraction is total and idempotent: every input string
yields an integer in [0, 100] obtained by concatenating the input's digit
characters, parsing, and clamping; a digit-free input yields exactly 50;
re-extracting from the rendered result is the identity; and the scenario
input "Match Score: 87% strong fit" yields 87. -/
theorem extract_match_score_C6 :
    (∀ s : String, extract_match_score s ≤ 100) ∧
    (∀ s : String, s.toList.filter Char.isDigit = [] →
      extract_match_score s = 50) ∧
    (∀ s : String,
      extract_match_score (Nat.repr (extract_match_score s)) =
        extract_match_score s) ∧
    extract_match_score "Match Score: 87% strong fit" = 87 := by
  have hb : ∀ s : String, extract_match_score s ≤ 100 := by
    intro s
    unfold extract_match_score
    simp [Nat.zero_max]
  refine ⟨hb, ?_, ?_, by decide⟩
  · intro s hs
    unfold extract_match_score
    simp only [hs]
    decide
  · intro s
    exact extract_match_score_repr (extract_match_score s)
      (Nat.lt_succ_of_le (hb s))

/-- C6 witness: a concrete digit-free input is mapped to 50 by the
digit-free clause of the theorem. -/
theorem extract_match_score_C6_witness :
    ("no digits at all".toList.filter Char.isDigit = []) ∧
    extract_match_score "no digits at all" = 50 :=
  ⟨by decide, extract_match_score_C6.2.1 "no digits at all" (by decide)⟩

/-- Index of the first `[` in a character list, if any. -/
def firstOpenIdx : List Char → Option Nat
  | [] => none
  | c :: cs => if c = '[' then some 0 else (firstOpenIdx cs).map (fun n => n + 1)

/-- Index of the first `]` in a character list, if any. -/
def firstCloseIdx : List Char → Option Nat
  | [] => none
  | c :: cs => if c = ']' then some 0 else (firstCloseIdx cs).map (fun n => n + 1)

/-- Index of the last `]` in a character list, if any. -/
def lastCloseIdx (s : List Char) : Option Nat :=
  match firstCloseIdx s.reverse with
  | none => none
  | some k => some (s.length - 1 - k)

/-- The skill-gap JSON extraction of the main block (app.py lines 473–474 and
476–477): `re.search(r'\[.*\]', s, re.DOTALL)` takes the leftmost match —
which starts at the first `[` — and the greedy `.*` (dot matching newlines)
extends it to the last `]`; `group(0)` is that slice, and absence of a match
defaults to the two-character string `[]`. -/
def skill_gap_extract (s : List Char) : List Char :=
  match firstOpenIdx s, lastCloseIdx s with
  | some i, some j => if i < j then (s.drop i).take (j - i + 1) else ['[', ']']
  | some _, none => ['[', ']']
  | none, _ => ['[', ']']

/-- The first `[` of `a ++ '[' :: t` sits at index `a.length` when `a` is
`[`-free. -/
theorem firstOpenIdx_of_append (a t : List Char) (ha : '[' ∉ a) :
    firstOpenIdx (a ++ '[' :: t) = some a.length := by
  induction a with
  | nil => simp [firstOpenIdx]
  | cons c a ih =>
    simp only [List.mem_cons, not_or] at ha
    have hc : ¬ (c = '[') := fun h => ha.1 h.symm
    simp [firstOpenIdx, hc, ih ha.2]

/-- The first `]` of `b ++ ']' :: t` sits at index `b.length` when `b` is
`]`-free. -/
theorem firstCloseIdx_of_append (b t : List Char) (hb : ']' ∉ b) :
    firstCloseIdx (b ++ ']' :: t) = some b.length := by
  induction b with
  | nil => simp [firstCloseIdx]
  | cons c b ih =>
    simp only [List.mem_cons, not_or] at hb
    have hc : ¬ (c = ']') := fun h => hb.1 h.symm
    simp [firstCloseIdx, hc, ih hb.2]

/-- A reported first-`[` index is in range and indeed holds `[`. -/
theorem firstOpenIdx_spec : ∀ {s : List Char} {i : Nat},
    firstOpenIdx s = some i → ∃ h : i < s.length, s.get ⟨i, h⟩ = '[' := by
  intro s
  induction s with
  | nil => intro i h; simp [firstOpenIdx] at h
  | cons c cs ih =>
    intro i h
    simp only [firstOpenIdx] at h
    by_cases hc : c = '['
    · rw [if_pos hc] at h
      injection h with h0
      subst h0
      exact ⟨Nat.succ_pos _, by simp [hc]⟩
    · rw [if_neg hc] at h
      cases hfi : firstOpenIdx cs with
      | none => rw [hfi] at h; simp at h
      | some k =>
        rw [hfi] at h
        simp only [Option.map_some', Option.some.injEq] at h
        subst h
        obtain ⟨hk, hget⟩ := ih hfi
        exact ⟨Nat.succ_lt_succ hk, by simpa using hget⟩

/-- A reported first-`]` index is in range and indeed holds `]`. -/
theorem firstCloseIdx_spec : ∀ {s : List Char} {i : Nat},
    firstCloseIdx s = some i → ∃ h : i < s.length, s.get ⟨i, h⟩ = ']' := by
  intro s
  induction s with
  | nil => intro i h; simp [firstCloseIdx] at h
  | cons c cs ih =>
    intro i h
    simp only [firstCloseIdx] at h
    by_cases hc : c = ']'
    · rw [if_pos hc] at h
      injection h with h0
      subst h0
      exact ⟨Nat.succ_pos _, by simp [hc]⟩
    · rw [if_neg hc] at h
      cases hfi : firstCloseIdx cs with
      | none => rw [hfi] at h; simp at h
      | some k =>
        rw [hfi] at h
        simp only [Option.map_some', Option.some.injEq] at h
        subst h
        obtain ⟨hk, hget⟩ := ih hfi
        exact ⟨Nat.succ_lt_succ hk, by simpa using hget⟩

/-- A reported last-`]` index is in range and indeed holds `]`. -/
theorem lastCloseIdx_spec {s : List Char} {j : Nat}
    (h : lastCloseIdx s = some j) : ∃ hj : j < s.length, s.get ⟨j, hj⟩ = ']' := by
  unfold lastCloseIdx at h
  cases hk : firstCloseIdx s.reverse with
  | none => rw [hk] at h; simp at h
  | some k =>
    rw [hk] at h
    injection h with hj'
    obtain ⟨hklt, hget⟩ := firstCloseIdx_spec hk
    have hkl : k < s.length := by simpa using hklt
    have hjlt : s.length - 1 - k < s.length := by omega
    refine ⟨hj' ▸ hjlt, ?_⟩
    subst hj'
    rw [List.get_reverse' s ⟨k, hklt⟩ hjlt] at hget
    exact hget

/-- C7: JSON-array extraction is total (it is a plain function): an embedded
well-formed array `'[' :: mid ++ [']']` with bracket-free surroundings is
returned verbatim, and any input without a `[...]` span — no `[` strictly
before some `]` — yields exactly the string `[]`. -/
theorem skill_gap_extract_C7 :
    (∀ a mid b : List Char, '[' ∉ a → ']' ∉ a → '[' ∉ b → ']' ∉ b →
      skill_gap_extract (a ++ ('[' :: mid ++ [']']) ++ b) = '[' :: mid ++ [']']) ∧
    (∀ s : List Char,
      (¬ ∃ p q : Fin s.length, (p : Nat) < (q : Nat) ∧
        s.get p = '[' ∧ s.get q = ']') →
      skill_gap_extract s = ['[', ']']) := by
  constructor
  · intro a mid b haO haC hbO hbC
    have h1 : firstOpenIdx (a ++ ('[' :: mid ++ [']']) ++ b) = some a.length := by
      have hshape : a ++ ('[' :: mid ++ [']']) ++ b
          = a ++ '[' :: (mid ++ [']'] ++ b) := by
        simp [List.append_assoc]
      rw [hshape]
      exact firstOpenIdx_of_append a _ haO
    have hrev : (a ++ ('[' :: mid ++ [']']) ++ b).reverse
        = b.reverse ++ ']' :: (mid.reverse ++ '[' :: a.reverse) := by
      simp [List.reverse_append, List.append_assoc]
    have hbrev : ']' ∉ b.reverse := by simpa using hbC
    have h2 : lastCloseIdx (a ++ ('[' :: mid ++ [']']) ++ b)
        = some (a.length + mid.length + 1) := by
      unfold lastCloseIdx
      rw [hrev, firstCloseIdx_of_append _ _ hbrev]
      simp only [List.length_append, List.length_cons, List.length_reverse,
        List.length_nil, Option.some.injEq]
      omega
    simp only [skill_gap_extract, h1, h2]
    have hij : a.length < a.length + mid.length + 1 := by omega
    rw [if_pos hij]
    have hdrop : (a ++ ('[' :: mid ++ [']']) ++ b).drop a.length
        = ('[' :: mid ++ [']']) ++ b := by
      rw [List.append_assoc]
      exact List.drop_left a _
    rw [hdrop]
    have hlen : a.length + mid.length + 1 - a.length + 1 = mid.length + 2 := by
      omega
    rw [hlen]
    have harr : mid.length + 2 = ('[' :: mid ++ [']']).length := by
      simp only [List.length_cons, List.length_append, List.length_nil]
    rw [harr]
    exact List.take_left _ _
  · intro s hns
    rcases h1 : firstOpenIdx s with _ | i
    · simp [skill_gap_extract, h1]
    rcases h2 : lastCloseIdx s with _ | j
    · simp [skill_gap_extract, h1, h2]
    by_cases hij : i < j
    · exfalso
      obtain ⟨hi, hgi⟩ := firstOpenIdx_spec h1
      obtain ⟨hj, hgj⟩ := lastCloseIdx_spec h2
      exact hns ⟨⟨i, hi⟩, ⟨j, hj⟩, hij, hgi, hgj⟩
    · simp [skill_gap_extract, h1, h2, hij]

/-- C7 witness: the embedded array `[1]` inside `" [1]!"` comes back
verbatim, and the bracket-free input `"ab"` yields `[]`. -/
theorem skill_gap_extract_C7_witness :
    ('[' ∉ ([' '] : List Char) ∧ ']' ∉ ([' '] : List Char) ∧
     '[' ∉ (['!'] : List Char) ∧ ']' ∉ (['!'] : List Char)) ∧
    skill_gap_extract ([' '] ++ ('[' :: ['1'] ++ [']']) ++ ['!'])
      = '[' :: ['1'] ++ [']'] ∧
    (¬ ∃ p q : Fin (['a', 'b'] : List Char).length, (p : Nat) < (q : Nat) ∧
      (['a', 'b'] : List Char).get p = '[' ∧ (['a', 'b'] : List Char).get q = ']') ∧
    skill_gap_extract ['a', 'b'] = ['[', ']'] := by
  refine ⟨⟨by decide, by decide, by decide, by decide⟩, ?_, by decide, ?_⟩
  · exact skill_gap_extract_C7.1 [' '] ['1'] ['!']
      (by decide) (by decide) (by decide) (by decide)
  · exact skill_gap_extract_C7.2 ['a', 'b'] (by decide)
